import Mathlib

/-!
Shallow embedding of the Smart Personal Task Manager agent (src/agent.py):
the bounded observability event log (`ObservabilityTracker.log_event`), the
A2A message bus dispatch (`A2AProtocol._process_message`), the sequential
orchestrator (`SequentialAgentOrchestrator`), and the task-store tools
(`add_task`, `list_tasks`, `delete_previous_month_tasks`).

Python strings are Lean `String`s; Python `str.lower` is modelled by
ASCII lowering (all keywords and comparisons in the source are ASCII);
Python `sub in s` is substring containment; Python dictionaries holding
task records are modelled by a `Task` record with the exact field set
`add_task` creates; the JSON store is the list of tasks threaded through
each operation; fallible external calls are `Except`-valued.
-/

namespace TaskScheduler

/-- One step of Python substring search: does `needle` occur at the head of
`hay`? (helper for the `in` operator). -/
def charsStartWith : List Char → List Char → Bool
  | [], _ => true
  | _ :: _, [] => false
  | a :: as, b :: bs => a == b && charsStartWith as bs

/-- Python `needle in hay` on character lists: `needle` occurs contiguously
somewhere in `hay` (the empty needle always occurs). -/
def containsSub : List Char → List Char → Bool
  | needle, [] => needle.isEmpty
  | needle, b :: bs => charsStartWith needle (b :: bs) || containsSub needle bs

/-- Python `sub in s` for strings. -/
def pyIn (sub s : String) : Bool := containsSub sub.toList s.toList

/-- Python `s.lower()` (ASCII; every keyword and title compared in the
source is ASCII): lower each character. -/
def pyLower (s : String) : String := String.mk (s.toList.map Char.toLower)

/-- `EventType` enum of src/agent.py. -/
inductive EventType where
  | AGENT_CALL
  | TOOL_EXECUTION
  | A2A_COMMUNICATION
  | ERROR
  | SESSION_CREATED
deriving DecidableEq

/-- `ObservabilityEvent` dataclass of src/agent.py.  `details` values are
rendered as strings; `duration_ms` is kept in whole milliseconds. -/
structure ObservabilityEvent where
  event_id : String
  event_type : EventType
  timestamp : String
  agent_name : String
  details : List (String × String)
  duration_ms : Nat
deriving DecidableEq

/-- Python `xs[-n:]` guarded by the source's `if len > 1000` check:
keep only the last `n` elements once the list exceeds `n`. -/
def keep_last (n : Nat) (xs : List α) : List α :=
  if xs.length > n then xs.drop (xs.length - n) else xs

/-- `ObservabilityTracker.log_event` (src/agent.py lines 56-71), restricted
to its effect on `self.events`: append the new event, then
`if len(self.events) > 1000: self.events = self.events[-1000:]`.
The freshly generated uuid/timestamp live inside the supplied event. -/
def log_event (events : List ObservabilityEvent) (e : ObservabilityEvent) :
    List ObservabilityEvent :=
  let appended := events ++ [e]
  if appended.length > 1000 then appended.drop (appended.length - 1000) else appended

/-- An event value used to instantiate witnesses about the tracker. -/
def sampleEvent (n : Nat) : ObservabilityEvent :=
  { event_id := toString n, event_type := EventType.AGENT_CALL, timestamp := ""
  , agent_name := "tester", details := [], duration_ms := 0 }

/-- A tracker event as produced inside the bus/orchestrator model: the
uuid and wall-clock timestamp assigned by the tracker are environment
noise for every claim here and are abstracted as `""`. -/
def mkEvent (ty : EventType) (agent : String) (details : List (String × String)) :
    ObservabilityEvent :=
  { event_id := "", event_type := ty, timestamp := "", agent_name := agent
  , details := details, duration_ms := 0 }

/-- `A2AMessage` of src/agent.py (lines 88-98). -/
structure A2AMessage where
  message_id : String
  from_agent : String
  to_agent : String
  message_type : String
  content : List (String × String)
  context : List (String × String)
  timestamp : String
  delivered : Bool
deriving DecidableEq

/-- `A2AMessage.__init__`: the constructor always starts with
`delivered = False`; uuid and timestamp are supplied by the environment. -/
def A2AMessage.make (from_agent to_agent message_type : String)
    (content context : List (String × String)) (message_id timestamp : String) :
    A2AMessage :=
  { message_id := message_id, from_agent := from_agent, to_agent := to_agent
  , message_type := message_type, content := content, context := context
  , timestamp := timestamp, delivered := false }

/-- A registered agent handler: an async function of the message that either
returns (`ok`) or raises an exception rendered as a string (`error`). -/
def Handler : Type := A2AMessage → Except String Unit

/-- Outcome of `A2AProtocol._process_message` on one dequeued message:
the (possibly updated) message, the tracker events it logged, the agent
names whose handler got invoked (in order), and any messages it put back
on the queue (the source never requeues). -/
structure ProcessResult where
  message : A2AMessage
  events : List ObservabilityEvent
  invoked : List String
  requeued : List A2AMessage

/-- ERROR event logged when `to_agent` has no registered handler
(src/agent.py lines 158-167). -/
def agent_not_found_event (m : A2AMessage) : ObservabilityEvent :=
  mkEvent EventType.ERROR "A2AProtocol"
    [("action", "agent_not_found"), ("to_agent", m.to_agent), ("message_id", m.message_id)]

/-- A2A_COMMUNICATION event logged after a handler completes
(src/agent.py lines 138-147). -/
def message_processed_event (m : A2AMessage) : ObservabilityEvent :=
  mkEvent EventType.A2A_COMMUNICATION m.to_agent
    [("action", "message_processed"), ("from_agent", m.from_agent)
    , ("message_type", m.message_type), ("message_id", m.message_id)]

/-- ERROR event logged when the handler raises (src/agent.py lines 148-157). -/
def message_processing_error_event (m : A2AMessage) (err : String) : ObservabilityEvent :=
  mkEvent EventType.ERROR m.to_agent
    [("action", "message_processing_error"), ("error", err), ("message_id", m.message_id)]

/-- `A2AProtocol._process_message` (src/agent.py lines 133-167).
The registry `handlers` is the `agent_handlers` dict viewed as a lookup. -/
def process_message (handlers : String → Option Handler) (message : A2AMessage) :
    ProcessResult :=
  match handlers message.to_agent with
  | some handler =>
    match handler message with
    | Except.ok _ =>
        { message := { message with delivered := true }
        , events := [message_processed_event message]
        , invoked := [message.to_agent], requeued := [] }
    | Except.error e =>
        { message := message
        , events := [message_processing_error_event message e]
        , invoked := [message.to_agent], requeued := [] }
  | none =>
      { message := message
      , events := [agent_not_found_event message]
      , invoked := [], requeued := [] }

/-- Did the registered handler for `m.to_agent` run and complete without
error? -/
def handler_success (handlers : String → Option Handler) (m : A2AMessage) : Bool :=
  match handlers m.to_agent with
  | some h => match h m with
    | Except.ok _ => true
    | Except.error _ => false
  | none => false

/-- The three `LlmAgent`s the orchestrator routes between. -/
inductive AgentName where
  | task_manager_agent
  | goal_planning_agent
  | analysis_agent
deriving DecidableEq

/-- The `name` attribute of each agent. -/
def AgentName.pyName : AgentName → String
  | AgentName.task_manager_agent => "task_manager_agent"
  | AgentName.goal_planning_agent => "goal_planning_agent"
  | AgentName.analysis_agent => "analysis_agent"

/-- Keywords routed to the goal-planning agent (src/agent.py line 851). -/
def goal_keywords : List String := ["goal", "long-term", "strategy", "plan", "vision"]

/-- Keywords routed to the analysis agent (src/agent.py line 853). -/
def analysis_keywords : List String := ["report", "analysis", "stats", "trend", "progress"]

/-- `SequentialAgentOrchestrator._route_to_agent` (src/agent.py lines 837-856). -/
def route_to_agent (user_input : String) : AgentName :=
  let input_lower := pyLower user_input
  if goal_keywords.any (fun k => pyIn k input_lower) then AgentName.goal_planning_agent
  else if analysis_keywords.any (fun k => pyIn k input_lower) then AgentName.analysis_agent
  else AgentName.task_manager_agent

/-- `SequentialAgentOrchestrator._determine_secondary_agent`
(src/agent.py lines 858-870). -/
def determine_secondary_agent (user_input primary_response : String) : Option AgentName :=
  let input_lower := pyLower user_input
  let response_lower := pyLower primary_response
  if pyIn "goal" input_lower && pyIn "task" response_lower then
    some AgentName.goal_planning_agent
  else if pyIn "report" response_lower || pyIn "analysis" response_lower then
    some AgentName.analysis_agent
  else none

/-- The orchestrator's external collaborator: `_run_agent`, i.e. running one
agent on the input for a user.  From `execute_workflow`'s point of view this
step either yields the agent's text response or fails with an exception. -/
structure OrchestratorEnv where
  run_agent : AgentName → String → String → Except String String

/-- AGENT_CALL `workflow_start` event (src/agent.py lines 803-807). -/
def workflow_start_event (user_input : String) (primary : AgentName) : ObservabilityEvent :=
  mkEvent EventType.AGENT_CALL "Orchestrator"
    [("action", "workflow_start"), ("input", user_input)
    , ("primary_agent", primary.pyName)]

/-- AGENT_CALL `workflow_complete` event (src/agent.py lines 820-829). -/
def workflow_complete_event (primary : AgentName) (secondary : Option AgentName) :
    ObservabilityEvent :=
  mkEvent EventType.AGENT_CALL "Orchestrator"
    [("action", "workflow_complete")
    , ("agents_involved", primary.pyName ++ ","
        ++ (match secondary with
            | some a => a.pyName
            | none => "none"))]

/-- ERROR `workflow_failed` event (src/agent.py line 834). -/
def workflow_failed_event (err : String) : ObservabilityEvent :=
  mkEvent EventType.ERROR "Orchestrator" [("action", "workflow_failed"), ("error", err)]

/-- The separator joining primary and secondary responses
(src/agent.py line 816). -/
def workflow_separator : String := "\n\n---\n\n"

/-- The user-facing apology string built in `execute_workflow`'s `except`
branch (src/agent.py line 835). -/
def apology_text (err : String) : String :=
  "I encountered an error while processing your request: " ++ err

/-- The body of `execute_workflow`'s `try` block (src/agent.py lines
799-831): route, log `workflow_start`, run the primary agent, maybe pick and
run a secondary agent, merge, log `workflow_complete`.  Returns the pending
result of the block together with the tracker events logged so far (events
already logged survive even when a later step raises). -/
def execute_workflow_steps (env : OrchestratorEnv) (user_input user_id : String) :
    Except String String × List ObservabilityEvent :=
  let primary_agent := route_to_agent user_input
  let ev_start := workflow_start_event user_input primary_agent
  match env.run_agent primary_agent user_input user_id with
  | Except.error e => (Except.error e, [ev_start])
  | Except.ok primary_response =>
    match determine_secondary_agent user_input primary_response with
    | some secondary =>
      match env.run_agent secondary user_input user_id with
      | Except.error e => (Except.error e, [ev_start])
      | Except.ok secondary_response =>
          (Except.ok (primary_response ++ workflow_separator ++ secondary_response)
          , [ev_start, workflow_complete_event primary_agent (some secondary)])
    | none =>
        (Except.ok primary_response
        , [ev_start, workflow_complete_event primary_agent none])

/-- `SequentialAgentOrchestrator.execute_workflow` (src/agent.py lines
795-835): the `try` body, with every failure caught and converted into the
apology string plus an ERROR `workflow_failed` event.  Returns the final
text answer and the tracker events logged during the call. -/
def execute_workflow (env : OrchestratorEnv) (user_input user_id : String) :
    String × List ObservabilityEvent :=
  match execute_workflow_steps env user_input user_id with
  | (Except.ok final_response, evs) => (final_response, evs)
  | (Except.error e, evs) => (apology_text e, evs ++ [workflow_failed_event e])

/-- A subtask record as created by `add_subtasks` (src/agent.py lines 566-572). -/
structure Subtask where
  title : String
  status : String
  created_at : String
  completed_at : Option String
deriving DecidableEq

/-- A task record with exactly the fields `add_task` creates
(src/agent.py lines 245-256); the JSON store's `"tasks"` list is a
`List Task`. -/
structure Task where
  id : Int
  title : String
  due_date : Option String
  priority : String
  context : String
  status : String
  created_at : String
  updated_at : Option String
  reminder_time : Option String
  subtasks : List Subtask
deriving DecidableEq

/-- `_next_task_id` (src/agent.py lines 200-203): 1 on an empty store, else
the maximum existing id plus one. -/
def next_task_id : List Task → Int
  | [] => 1
  | t :: ts => (ts.foldl (fun m u => max m u.id) t.id) + 1

/-- The dedup test of `add_task` (src/agent.py line 237):
`t["title"].lower() == title.lower() and t["due_date"] == due_date`. -/
def duplicate_of (title : String) (due_date : Option String) (t : Task) : Bool :=
  pyLower t.title == pyLower title && t.due_date == due_date

/-- The result dictionary of `add_task`: either the `"duplicate"` envelope
holding the existing task, or the `"success"` envelope holding the freshly
inserted task; `message` is the `task_exists:`/`task_created:` string. -/
inductive AddTaskResult where
  | duplicate (task : Task) (message : String)
  | success (task : Task) (message : String)
deriving DecidableEq

/-- `add_task` (src/agent.py lines 212-273) as a pure store transformer:
the loaded store comes in as `db`, the (result, saved store) pair comes
out; `now` is the environment's `datetime.utcnow().isoformat()`. -/
def add_task (db : List Task) (title : String) (due_date : Option String)
    (priority : String) (context : Option String) (reminder_time : Option String)
    (now : String) : AddTaskResult × List Task :=
  match db.find? (duplicate_of title due_date) with
  | some t => (AddTaskResult.duplicate t ("task_exists:" ++ toString t.id), db)
  | none =>
    let task_id := next_task_id db
    let task : Task :=
      { id := task_id, title := title, due_date := due_date, priority := priority
      , context := context.getD "", status := "pending", created_at := now
      , updated_at := none, reminder_time := reminder_time, subtasks := [] }
    (AddTaskResult.success task ("task_created:" ++ toString task_id), db ++ [task])

/-- A `datetime.datetime` value: the seven components that determine
Python's field-lexicographic datetime ordering. -/
structure PyDateTime where
  year : Nat
  month : Nat
  day : Nat
  hour : Nat
  minute : Nat
  second : Nat
  microsecond : Nat
deriving DecidableEq

/-- `datetime.max` = 9999-12-31 23:59:59.999999. -/
def datetime_max : PyDateTime :=
  { year := 9999, month := 12, day := 31, hour := 23, minute := 59
  , second := 59, microsecond := 999999 }

/-- The numeric value of an ASCII digit character, else `none`. -/
def digitVal (c : Char) : Option Nat :=
  if 48 ≤ c.toNat && c.toNat ≤ 57 then some (c.toNat - 48) else none

/-- Read exactly `n` leading ASCII digits as a decimal number, continuing
from the accumulator. -/
def readDigitsAux : Nat → Nat → List Char → Option (Nat × List Char)
  | 0, acc, cs => some (acc, cs)
  | _ + 1, _, [] => none
  | n + 1, acc, c :: cs =>
    match digitVal c with
    | some d => readDigitsAux n (acc * 10 + d) cs
    | none => none

/-- Read exactly `n` leading ASCII digits as a decimal number. -/
def readDigits (n : Nat) (cs : List Char) : Option (Nat × List Char) :=
  readDigitsAux n 0 cs

/-- Consume one expected character. -/
def expectChar (c : Char) : List Char → Option (List Char)
  | [] => none
  | x :: xs => if x == c then some xs else none

/-- Gregorian leap-year rule used by `datetime`. -/
def is_leap_year (y : Nat) : Bool :=
  (y % 4 == 0 && y % 100 != 0) || y % 400 == 0

/-- Days in a month, as validated by `datetime`. -/
def days_in_month (y m : Nat) : Nat :=
  if m == 2 then (if is_leap_year y then 29 else 28)
  else if m == 4 || m == 6 || m == 9 || m == 11 then 30
  else 31

/-- The fractional-second part: exactly six digits (microseconds) or exactly
three digits (milliseconds, scaled by 1000), as `datetime.fromisoformat`
accepts. -/
def readFraction (cs : List Char) : Option (Nat × List Char) :=
  match readDigits 6 cs with
  | some (us, rest) => some (us, rest)
  | none =>
    match readDigits 3 cs with
    | some (ms, rest) => some (ms * 1000, rest)
    | none => none

/-- The time portion `HH[:MM[:SS[.fff[fff]]]]` of an ISO string; the whole
remainder must be consumed. -/
def parse_time (cs : List Char) : Option (Nat × Nat × Nat × Nat) :=
  match readDigits 2 cs with
  | none => none
  | some (h, rest1) =>
    if h > 23 then none
    else
      match rest1 with
      | [] => some (h, 0, 0, 0)
      | ':' :: rest2 =>
        match readDigits 2 rest2 with
        | none => none
        | some (mi, rest3) =>
          if mi > 59 then none
          else
            match rest3 with
            | [] => some (h, mi, 0, 0)
            | ':' :: rest4 =>
              match readDigits 2 rest4 with
              | none => none
              | some (s, rest5) =>
                if s > 59 then none
                else
                  match rest5 with
                  | [] => some (h, mi, s, 0)
                  | '.' :: rest6 =>
                    match readFraction rest6 with
                    | some (us, []) => some (h, mi, s, us)
                    | _ => none
                  | _ => none
            | _ => none
      | _ => none

/-- `datetime.fromisoformat` on the character list: `YYYY-MM-DD`, optionally
followed by a single separator character and `HH[:MM[:SS[.fff[fff]]]]`, with
calendar-valid components (year 1-9999); anything else raises, i.e. returns
`none`.  Timezone-suffixed inputs are treated as unparseable. -/
def fromisoformatChars (cs : List Char) : Option PyDateTime :=
  match readDigits 4 cs with
  | none => none
  | some (y, r1) =>
    match expectChar '-' r1 with
    | none => none
    | some r2 =>
      match readDigits 2 r2 with
      | none => none
      | some (mo, r3) =>
        match expectChar '-' r3 with
        | none => none
        | some r4 =>
          match readDigits 2 r4 with
          | none => none
          | some (d, r5) =>
            if y < 1 || mo < 1 || mo > 12 || d < 1 || d > days_in_month y mo then none
            else
              match r5 with
              | [] =>
                some { year := y, month := mo, day := d, hour := 0, minute := 0
                     , second := 0, microsecond := 0 }
              | _sep :: timecs =>
                match parse_time timecs with
                | none => none
                | some (h, mi, sec, us) =>
                  some { year := y, month := mo, day := d, hour := h, minute := mi
                       , second := sec, microsecond := us }

/-- `datetime.fromisoformat` on a string. -/
def fromisoformat (s : String) : Option PyDateTime :=
  fromisoformatChars s.toList

/-- `_parse_due` inside `list_tasks` (src/agent.py lines 388-398): a falsy
(missing/empty) due date is `datetime.max`; else try `fromisoformat(d)`,
then `fromisoformat(d + "T23:59:59")`, else `datetime.max`. -/
def parse_due (d : Option String) : PyDateTime :=
  match d with
  | none => datetime_max
  | some s =>
    if s = "" then datetime_max
    else
      match fromisoformat s with
      | some dt => dt
      | none =>
        match fromisoformat (s ++ "T23:59:59") with
        | some dt => dt
        | none => datetime_max

/-- `_priority_rank` inside `list_tasks` (src/agent.py lines 377-386):
`{"high": 0, "medium": 1, "low": 2}.get(p, 3)`. -/
def priority_rank (p : String) : Nat :=
  if p == "high" then 0
  else if p == "medium" then 1
  else if p == "low" then 2
  else 3

/-- The seven datetime components as a list, most significant first; Python
compares datetimes exactly by this sequence. -/
def PyDateTime.fields (d : PyDateTime) : List Nat :=
  [d.year, d.month, d.day, d.hour, d.minute, d.second, d.microsecond]

/-- Strict lexicographic order on digit-component lists (Python sequence
comparison). -/
def lexLtN : List Nat → List Nat → Bool
  | [], [] => false
  | [], _ :: _ => true
  | _ :: _, [] => false
  | a :: as, b :: bs => decide (a < b) || (a == b && lexLtN as bs)

/-- Python `datetime` `<`. -/
def PyDateTime.ltb (a b : PyDateTime) : Bool := lexLtN a.fields b.fields

/-- Python tuple `<=` on the sort key
`(_parse_due(t["due_date"]), _priority_rank(...), t["id"])` used by
`list_tasks` (src/agent.py lines 400-403). -/
def key_le (a b : Task) : Bool :=
  let da := parse_due a.due_date
  let db := parse_due b.due_date
  PyDateTime.ltb da db
    || (da == db
        && (decide (priority_rank a.priority < priority_rank b.priority)
            || (priority_rank a.priority == priority_rank b.priority
                && decide (a.id ≤ b.id))))

/-- The `"success"` envelope of `list_tasks`. -/
structure ListTasksResult where
  status : String
  tasks : List Task
deriving DecidableEq

/-- `list_tasks` (src/agent.py lines 368-416) as a pure function of the
loaded store: optional status filter, then Python's stable `sorted` with the
(due-date, priority-rank, id) key, modelled by stable merge sort under
`key_le`. -/
def list_tasks (db : List Task) (status : String) : ListTasksResult :=
  let tasks := if status ≠ "all" then db.filter (fun t => t.status == status) else db
  { status := "success", tasks := tasks.mergeSort key_le }

/-- The deletion test of `delete_previous_month_tasks`
(src/agent.py lines 303-304) applied to a parsed due date. -/
def previous_month_hit (current_year current_month : Int) (due : PyDateTime) : Bool :=
  ((due.year : Int) == current_year && (due.month : Int) == current_month - 1)
    || (current_month == 1 && (due.year : Int) == current_year - 1
        && (due.month : Int) == 12)

/-- Does `delete_previous_month_tasks` remove this task?  A missing due date
(`fromisoformat(None)` raises) or an unparseable one lands in the bare
`except` and is kept. -/
def due_in_previous_month (current_year current_month : Int) (t : Task) : Bool :=
  match t.due_date with
  | none => false
  | some s =>
    match fromisoformat s with
    | none => false
    | some due => previous_month_hit current_year current_month due

/-- The `"success"` envelope of `delete_previous_month_tasks`. -/
structure DeleteResult where
  status : String
  deleted_count : Nat
  deleted_tasks : List Task
deriving DecidableEq

/-- `delete_previous_month_tasks` (src/agent.py lines 275-327) as a pure
store transformer: the loop partitions the store, in order, into `cleaned`
(saved back) and `removed` (reported); `current_year`/`current_month` are
the environment's `datetime.utcnow()` components. -/
def delete_previous_month_tasks (db : List Task) (current_year current_month : Int) :
    DeleteResult × List Task :=
  let removed := db.filter (due_in_previous_month current_year current_month)
  let cleaned := db.filter (fun t => !(due_in_previous_month current_year current_month t))
  ({ status := "success", deleted_count := removed.length, deleted_tasks := removed }
  , cleaned)

/-- "The calendar month immediately before (current_year, current_month)",
stated the way the claim reads: December of the previous year when the
current month is January, else the same year and month minus one. -/
def prev_month_spec (current_year current_month y m : Int) : Prop :=
  if current_month = 1 then y = current_year - 1 ∧ m = 12
  else y = current_year ∧ m = current_month - 1

/-- The new record `add_task` inserts when no duplicate exists
(src/agent.py lines 244-256). -/
def new_task (db : List Task) (title : String) (due_date : Option String)
    (priority : String) (context : Option String) (reminder_time : Option String)
    (now : String) : Task :=
  { id := next_task_id db, title := title, due_date := due_date, priority := priority
  , context := context.getD "", status := "pending", created_at := now
  , updated_at := none, reminder_time := reminder_time, subtasks := [] }

/-- The component ranges every `datetime` value produced by `fromisoformat`
or `datetime.max` lies in. -/
def in_range (x : PyDateTime) : Prop :=
  x.year ≤ 9999 ∧ x.month ≤ 12 ∧ x.day ≤ 31 ∧ x.hour ≤ 23 ∧ x.minute ≤ 59 ∧
    x.second ≤ 59 ∧ x.microsecond ≤ 999999

/-- A registry with no handlers, for the C2 witness. -/
def empty_handlers : String → Option Handler := fun _ => none

/-- A concrete message used by the bus witnesses. -/
def sample_message : A2AMessage :=
  A2AMessage.make "analysis_agent" "nobody_home" "productivity_report" [] [] "msg-1" "t0"

/-- A handler that always raises, for the C9 witness. -/
def raising_handlers : String → Option Handler :=
  fun _ => some (fun _ => Except.error "boom")

/-- An agent runner that always crashes, for the C3 witness. -/
def failing_env : OrchestratorEnv :=
  { run_agent := fun _ _ _ => Except.error "boom" }

/-- Concrete stored task for the C7 witness (the spec's dedup example). -/
def milk_task : Task :=
  { id := 1, title := "Buy milk", due_date := some "2024-01-01", priority := "medium"
  , context := "", status := "pending", created_at := "", updated_at := none
  , reminder_time := none, subtasks := [] }

/-- Concrete task without a due date (C8 witness). -/
def task_no_due : Task :=
  { id := 1, title := "no due", due_date := none, priority := "medium"
  , context := "", status := "pending", created_at := "", updated_at := none
  , reminder_time := none, subtasks := [] }

/-- Concrete task due 2024-02-01, low priority (C8 witness). -/
def task_feb : Task :=
  { id := 2, title := "feb", due_date := some "2024-02-01", priority := "low"
  , context := "", status := "pending", created_at := "", updated_at := none
  , reminder_time := none, subtasks := [] }

/-- Concrete task due 2024-01-01, high priority (C8 witness). -/
def task_jan : Task :=
  { id := 3, title := "jan", due_date := some "2024-01-01", priority := "high"
  , context := "", status := "pending", created_at := "", updated_at := none
  , reminder_time := none, subtasks := [] }

/-- Concrete task with an unparseable due date (C10 witness). -/
def task_bad_due : Task :=
  { id := 4, title := "bad", due_date := some "soon", priority := "medium"
  , context := "", status := "pending", created_at := "", updated_at := none
  , reminder_time := none, subtasks := [] }

/-- Concrete task due in February 2024, i.e. the month before March 2024
(C10 witness). -/
def task_prev_month : Task :=
  { id := 5, title := "prev", due_date := some "2024-02-10", priority := "medium"
  , context := "", status := "pending", created_at := "", updated_at := none
  , reminder_time := none, subtasks := [] }

/-! ## Theorems -/

theorem keep_last_eq_reverse_take (n : Nat) (xs : List α) :
    keep_last n xs = (xs.reverse.take n).reverse := by
  unfold keep_last
  split
  · rename_i h
    have hn : n ≤ xs.length := Nat.le_of_lt h
    have := List.reverse_drop (l := xs) (n := xs.length - n)
    rw [Nat.sub_sub_self hn] at this
    calc xs.drop (xs.length - n)
        = (xs.drop (xs.length - n)).reverse.reverse := by rw [List.reverse_reverse]
      _ = (xs.reverse.take n).reverse := by rw [this]
  · rename_i h
    have hn : xs.length ≤ n := Nat.le_of_not_lt h
    rw [List.take_of_length_le (by simpa using hn), List.reverse_reverse]

theorem keep_last_append (n : Nat) (xs ys : List α) :
    keep_last n (keep_last n xs ++ ys) = keep_last n (xs ++ ys) := by
  rw [keep_last_eq_reverse_take n (keep_last n xs ++ ys),
      keep_last_eq_reverse_take n (xs ++ ys)]
  congr 1
  rw [List.reverse_append, List.reverse_append,
      keep_last_eq_reverse_take n xs, List.reverse_reverse]
  rw [List.take_append_eq_append_take, List.take_append_eq_append_take, List.take_take]
  congr 1
  rw [Nat.min_comm, Nat.min_eq_right (Nat.sub_le n ys.reverse.length)]

theorem keep_last_length_le (n : Nat) (xs : List α) : (keep_last n xs).length ≤ n := by
  unfold keep_last
  split
  · rename_i h
    rw [List.length_drop]
    omega
  · rename_i h
    omega

theorem log_event_eq_keep_last (events : List ObservabilityEvent) (e : ObservabilityEvent) :
    log_event events e = keep_last 1000 (events ++ [e]) := rfl

theorem foldl_log_event (calls : List ObservabilityEvent) :
    ∀ init : List ObservabilityEvent, init.length ≤ 1000 →
      List.foldl log_event init calls = keep_last 1000 (init ++ calls) := by
  induction calls with
  | nil =>
    intro init h
    simp only [List.foldl_nil, List.append_nil]
    unfold keep_last
    rw [if_neg (by omega)]
  | cons c cs ih =>
    intro init h
    rw [List.foldl_cons,
        ih (log_event init c) (by rw [log_event_eq_keep_last]; exact keep_last_length_le _ _),
        log_event_eq_keep_last, keep_last_append]
    simp

/-- C1: after any sequence of more than 1000 `log_event` calls starting from
the empty tracker, the event list is exactly the last 1000 logged events in
original call order (so it has length 1000); when the logged events are
pairwise distinct, every event from the first `N - 1000` calls is absent,
and the event of call `N - 999` (index `N - 1000`) is the head, i.e. the
oldest surviving entry. -/
theorem c1_bounded_event_log (calls : List ObservabilityEvent)
    (h : 1000 < calls.length) :
    List.foldl log_event [] calls = calls.drop (calls.length - 1000) ∧
    (List.foldl log_event [] calls).length = 1000 ∧
    (List.foldl log_event [] calls).head? =
      calls[calls.length - 1000]? ∧
    (calls.Nodup → ∀ i : Nat, ∀ hi : i < calls.length - 1000,
      calls.get ⟨i, Nat.lt_of_lt_of_le hi (Nat.sub_le _ _)⟩ ∉
        List.foldl log_event [] calls) := by
  have heq : List.foldl log_event [] calls = calls.drop (calls.length - 1000) := by
    rw [foldl_log_event calls [] (by simp), List.nil_append]
    unfold keep_last
    rw [if_pos h]
  refine ⟨heq, ?_, ?_, ?_⟩
  · rw [heq, List.length_drop]
    omega
  · rw [heq, List.head?_drop]
  · intro hnd i hi hmem
    rw [heq] at hmem
    rcases List.mem_iff_getElem.mp hmem with ⟨j, hj, hval⟩
    rw [List.getElem_drop] at hval
    have : calls.length - 1000 + j = i := (hnd.getElem_inj_iff).mp hval
    omega

/-- Witness for C1 at a concrete sequence of 1001 distinct events. -/
theorem c1_witness :
    List.foldl log_event [] ((List.range 1001).map sampleEvent) =
      ((List.range 1001).map sampleEvent).drop
        (((List.range 1001).map sampleEvent).length - 1000) :=
  (c1_bounded_event_log ((List.range 1001).map sampleEvent) (by simp)).1

/-- C2: for every processed message, at most one handler invocation happens,
and any invocation is of the handler registered for the message's
`to_agent`; when `to_agent` has no registered handler, no handler is invoked
at all, exactly one ERROR event with action `agent_not_found` (carrying
`to_agent` and `message_id`) is logged, and the message is dropped unchanged
with nothing requeued. -/
theorem c2_at_most_once_delivery (handlers : String → Option Handler)
    (m : A2AMessage) :
    (process_message handlers m).invoked.length ≤ 1 ∧
    ((process_message handlers m).invoked ≠ [] →
      (process_message handlers m).invoked = [m.to_agent]) ∧
    (handlers m.to_agent = none →
      (process_message handlers m).invoked = [] ∧
      (process_message handlers m).events = [agent_not_found_event m] ∧
      (process_message handlers m).requeued = [] ∧
      (process_message handlers m).message = m) := by
  unfold process_message
  cases hh : handlers m.to_agent with
  | none => simp
  | some handler =>
    cases hm : handler m with
    | ok u => simp [hh, hm]
    | error e => simp [hh, hm]

/-- Witness for C2: sending to an unregistered agent logs exactly the
`agent_not_found` ERROR event and invokes no handler. -/
theorem c2_witness :
    (process_message empty_handlers sample_message).invoked = [] ∧
    (process_message empty_handlers sample_message).events =
      [agent_not_found_event sample_message] := by
  have h := (c2_at_most_once_delivery empty_handlers sample_message).2.2 rfl
  exact ⟨h.1, h.2.1⟩

/-- C9: `delivered` is `false` at construction; processing sets it to the
previous value or-ed with "the registered handler completed without error",
so it becomes `true` exactly on handler success, is never reset once `true`,
and a message whose handler is missing or raises stays undelivered. -/
theorem c9_delivered_flag (handlers : String → Option Handler) (m : A2AMessage)
    (from_agent to_agent message_type message_id timestamp : String)
    (content context : List (String × String)) :
    (A2AMessage.make from_agent to_agent message_type content context
        message_id timestamp).delivered = false ∧
    (process_message handlers m).message.delivered =
      (m.delivered || handler_success handlers m) ∧
    (m.delivered = true → (process_message handlers m).message.delivered = true) ∧
    (m.delivered = false →
      ((process_message handlers m).message.delivered = true ↔
        handler_success handlers m = true)) := by
  have hmain : (process_message handlers m).message.delivered =
      (m.delivered || handler_success handlers m) := by
    unfold process_message handler_success
    cases hh : handlers m.to_agent with
    | none => simp
    | some handler =>
      cases hm : handler m with
      | ok u => simp [hm]
      | error e => simp [hm]
  refine ⟨rfl, hmain, ?_, ?_⟩
  · intro h
    rw [hmain, h, Bool.true_or]
  · intro h
    rw [hmain, h, Bool.false_or]

/-- Witness for C9: a fresh message stays undelivered when its handler
raises. -/
theorem c9_witness :
    (process_message raising_handlers sample_message).message.delivered = false := by
  have h := (c9_delivered_flag raising_handlers sample_message
    "analysis_agent" "nobody_home" "productivity_report" "msg-1" "t0" [] []).2.2.2 rfl
  by_contra hc
  rw [Bool.not_eq_false] at hc
  exact absurd (h.mp hc) (by decide)

/-- C3: `execute_workflow` is a total function into plain text: when the
`try` body completes with a response, that response is returned together
with the events it logged; when any step fails with exception `e`, the
caught failure yields the apology string embedding `e` and an additional
ERROR `workflow_failed` event — never a propagated exception. -/
theorem c3_workflow_never_raises (env : OrchestratorEnv) (user_input user_id : String) :
    (∀ e evs, execute_workflow_steps env user_input user_id = (Except.error e, evs) →
      execute_workflow env user_input user_id =
        (apology_text e, evs ++ [workflow_failed_event e])) ∧
    (∀ r evs, execute_workflow_steps env user_input user_id = (Except.ok r, evs) →
      execute_workflow env user_input user_id = (r, evs)) := by
  unfold execute_workflow
  constructor
  · intro e evs hstep
    rw [hstep]
  · intro r evs hstep
    rw [hstep]

/-- Witness for C3: with a crashing executor the workflow still returns the
apology text (and has logged `workflow_failed`). -/
theorem c3_witness :
    execute_workflow failing_env "hello" "u1" =
      (apology_text "boom",
        [workflow_start_event "hello" AgentName.task_manager_agent]
          ++ [workflow_failed_event "boom"]) :=
  (c3_workflow_never_raises failing_env "hello" "u1").1 "boom"
    [workflow_start_event "hello" AgentName.task_manager_agent] rfl

/-- C4: routing is first-match on the lower-cased input — any goal keyword
contained selects the goal-planning agent; otherwise any analysis keyword
selects the analysis agent; otherwise the task-manager agent is the
default — and it is a pure function of the lower-cased text. -/
theorem c4_routing_keywords (user_input : String) :
    (goal_keywords.any (fun k => pyIn k (pyLower user_input)) = true →
      route_to_agent user_input = AgentName.goal_planning_agent) ∧
    (goal_keywords.any (fun k => pyIn k (pyLower user_input)) = false →
      analysis_keywords.any (fun k => pyIn k (pyLower user_input)) = true →
      route_to_agent user_input = AgentName.analysis_agent) ∧
    (goal_keywords.any (fun k => pyIn k (pyLower user_input)) = false →
      analysis_keywords.any (fun k => pyIn k (pyLower user_input)) = false →
      route_to_agent user_input = AgentName.task_manager_agent) ∧
    (∀ other : String, pyLower user_input = pyLower other →
      route_to_agent user_input = route_to_agent other) := by
  refine ⟨?_, ?_, ?_, ?_⟩
  · intro hg
    unfold route_to_agent
    simp [hg]
  · intro hg ha
    unfold route_to_agent
    simp [hg, ha]
  · intro hg ha
    unfold route_to_agent
    simp [hg, ha]
  · intro other hl
    unfold route_to_agent
    rw [hl]

/-- Witness for C4 at concrete inputs from each routing class. -/
theorem c4_witness :
    route_to_agent "Plan my week" = AgentName.goal_planning_agent ∧
    route_to_agent "show me the stats" = AgentName.analysis_agent ∧
    route_to_agent "buy milk" = AgentName.task_manager_agent ∧
    route_to_agent "GOAL" = route_to_agent "goal" := by
  refine ⟨(c4_routing_keywords "Plan my week").1 (by decide),
    (c4_routing_keywords "show me the stats").2.1 (by decide) (by decide),
    (c4_routing_keywords "buy milk").2.2.1 (by decide) (by decide),
    (c4_routing_keywords "GOAL").2.2.2 "goal" (by decide)⟩

/-- C5: secondary-agent determination follows the two ordered, mutually
exclusive rules of `_determine_secondary_agent`: lower-cased input contains
"goal" and lower-cased primary response contains "task" selects the
goal-planning agent; otherwise a primary response containing "report" or
"analysis" selects the analysis agent; otherwise no secondary is selected. -/
theorem c5_secondary_rules (user_input primary_response : String) :
    ((pyIn "goal" (pyLower user_input) && pyIn "task" (pyLower primary_response)) = true →
      determine_secondary_agent user_input primary_response =
        some AgentName.goal_planning_agent) ∧
    ((pyIn "goal" (pyLower user_input) && pyIn "task" (pyLower primary_response)) = false →
      (pyIn "report" (pyLower primary_response)
          || pyIn "analysis" (pyLower primary_response)) = true →
      determine_secondary_agent user_input primary_response =
        some AgentName.analysis_agent) ∧
    ((pyIn "goal" (pyLower user_input) && pyIn "task" (pyLower primary_response)) = false →
      (pyIn "report" (pyLower primary_response)
          || pyIn "analysis" (pyLower primary_response)) = false →
      determine_secondary_agent user_input primary_response = none) := by
  refine ⟨?_, ?_, ?_⟩
  · intro h1
    unfold determine_secondary_agent
    simp [h1]
  · intro h1 h2
    unfold determine_secondary_agent
    simp [h1, h2]
  · intro h1 h2
    unfold determine_secondary_agent
    simp [h1, h2]

/-- Witness for C5 at concrete (input, primary response) pairs covering the
three rules. -/
theorem c5_witness :
    determine_secondary_agent "my goal" "task list ready" =
      some AgentName.goal_planning_agent ∧
    determine_secondary_agent "hello" "see the analysis" =
      some AgentName.analysis_agent ∧
    determine_secondary_agent "hello" "done" = none := by
  refine ⟨(c5_secondary_rules "my goal" "task list ready").1 (by decide),
    (c5_secondary_rules "hello" "see the analysis").2.1 (by decide) (by decide),
    (c5_secondary_rules "hello" "done").2.2 (by decide) (by decide)⟩

/-- C6 counterexample: the input "set a goal" contains "goal" and the
primary response "here is a report" does not contain "task", yet the
determination step selects the analysis agent as secondary — refuting the
claim that no secondary agent is selected whatever else the response
contains. -/
theorem c6_counterexample :
    pyIn "goal" (pyLower "set a goal") = true ∧
    pyIn "task" (pyLower "here is a report") = false ∧
    determine_secondary_agent "set a goal" "here is a report" =
      some AgentName.analysis_agent := by
  decide

/-- C6 (amended): for every workflow whose input contains "goal" but whose
primary response does not contain "task", the goal-planning agent is never
selected as secondary; a secondary agent (the analysis agent) is selected
exactly when the primary response contains "report" or "analysis", and
otherwise none is selected. -/
theorem c6_amended_no_goal_secondary (user_input primary_response : String)
    (hg : pyIn "goal" (pyLower user_input) = true)
    (ht : pyIn "task" (pyLower primary_response) = false) :
    determine_secondary_agent user_input primary_response =
      (if (pyIn "report" (pyLower primary_response)
            || pyIn "analysis" (pyLower primary_response)) = true
        then some AgentName.analysis_agent else none) ∧
    determine_secondary_agent user_input primary_response ≠
      some AgentName.goal_planning_agent := by
  cases hr : (pyIn "report" (pyLower primary_response)
      || pyIn "analysis" (pyLower primary_response)) with
  | true =>
    unfold determine_secondary_agent
    simp [hg, ht, hr]
  | false =>
    unfold determine_secondary_agent
    simp [hg, ht, hr]

/-- Witness for the amended C6: input containing "goal", response without
"task" and without "report"/"analysis", yields no secondary agent. -/
theorem c6_amended_witness :
    determine_secondary_agent "set a goal" "all done" = none := by
  have h := (c6_amended_no_goal_secondary "set a goal" "all done"
    (by decide) (by decide)).1
  rw [h]
  decide

/-- C7: `add_task` against any store: when some stored task matches the
dedup key (case-insensitive title, exact due-date equality, `None`
included), the first such task is returned in a `duplicate` envelope whose
message carries that task's id and the store is left unchanged; when no
stored task matches, the fresh task (id = max+1, status `pending`) is
appended and a `success` envelope is returned — in particular a task
differing only in due date is created, not deduplicated. -/
theorem c7_add_task_dedup (db : List Task) (title : String) (due_date : Option String)
    (priority : String) (context : Option String) (reminder_time : Option String)
    (now : String) :
    (∀ t, db.find? (duplicate_of title due_date) = some t →
      add_task db title due_date priority context reminder_time now =
        (AddTaskResult.duplicate t ("task_exists:" ++ toString t.id), db)) ∧
    (db.find? (duplicate_of title due_date) = none →
      add_task db title due_date priority context reminder_time now =
        (AddTaskResult.success (new_task db title due_date priority context reminder_time now)
          ("task_created:" ++ toString (next_task_id db)),
          db ++ [new_task db title due_date priority context reminder_time now])) ∧
    (db.find? (duplicate_of title due_date) = none ↔
      ∀ t ∈ db, ¬(pyLower t.title = pyLower title ∧ t.due_date = due_date)) := by
  refine ⟨?_, ?_, ?_⟩
  · intro t hfind
    unfold add_task
    rw [hfind]
  · intro hfind
    unfold add_task
    rw [hfind]
    rfl
  · rw [List.find?_eq_none]
    constructor
    · intro h t ht hcontra
      apply h t ht
      simp only [duplicate_of, Bool.and_eq_true, beq_iff_eq]
      exact hcontra
    · intro h t ht
      simp only [duplicate_of, Bool.and_eq_true, beq_iff_eq]
      exact h t ht

/-- Witness for C7: the spec's dedup example — "buy milk" with the same due
date as the stored "Buy milk" is a duplicate referencing task 1; with a
different due date a new task (id 2) is created. -/
theorem c7_witness :
    add_task [milk_task] "buy milk" (some "2024-01-01") "medium" none none "" =
      (AddTaskResult.duplicate milk_task ("task_exists:" ++ toString milk_task.id),
        [milk_task]) ∧
    add_task [milk_task] "buy milk" (some "2024-01-02") "medium" none none "" =
      (AddTaskResult.success
          (new_task [milk_task] "buy milk" (some "2024-01-02") "medium" none none "")
          ("task_created:" ++ toString (next_task_id [milk_task])),
        [milk_task] ++ [new_task [milk_task] "buy milk" (some "2024-01-02") "medium" none none ""]) := by
  refine ⟨?_, ?_⟩
  · exact (c7_add_task_dedup [milk_task] "buy milk" (some "2024-01-01")
      "medium" none none "").1 milk_task (by decide)
  · exact (c7_add_task_dedup [milk_task] "buy milk" (some "2024-01-02")
      "medium" none none "").2.1 (by decide)

theorem lexLtN_irrefl (as : List Nat) : lexLtN as as = false := by
  induction as with
  | nil => rfl
  | cons a as' ih => simp [lexLtN, ih]

theorem lexLtN_trans : ∀ {as bs cs : List Nat},
    lexLtN as bs = true → lexLtN bs cs = true → lexLtN as cs = true := by
  intro as
  induction as with
  | nil =>
    intro bs cs h1 h2
    cases bs with
    | nil => exact h2
    | cons b bs' =>
      cases cs with
      | nil => simp [lexLtN] at h2
      | cons c cs' => rfl
  | cons a as' ih =>
    intro bs cs h1 h2
    cases bs with
    | nil => simp [lexLtN] at h1
    | cons b bs' =>
      cases cs with
      | nil => simp [lexLtN] at h2
      | cons c cs' =>
        simp only [lexLtN, Bool.or_eq_true, decide_eq_true_eq, Bool.and_eq_true,
          beq_iff_eq] at h1 h2 ⊢
        rcases h1 with h1 | ⟨hab, h1⟩
        · rcases h2 with h2 | ⟨hbc, h2⟩
          · exact Or.inl (Nat.lt_trans h1 h2)
          · exact Or.inl (hbc ▸ h1)
        · rcases h2 with h2 | ⟨hbc, h2⟩
          · exact Or.inl (hab ▸ h2)
          · exact Or.inr ⟨hab.trans hbc, ih h1 h2⟩

theorem lexLtN_connex : ∀ {as bs : List Nat},
    lexLtN as bs = false → lexLtN bs as = false → as = bs := by
  intro as
  induction as with
  | nil =>
    intro bs h1 _
    cases bs with
    | nil => rfl
    | cons b bs' => simp [lexLtN] at h1
  | cons a as' ih =>
    intro bs h1 h2
    cases bs with
    | nil => simp [lexLtN] at h2
    | cons b bs' =>
      simp only [lexLtN, Bool.or_eq_false_iff, decide_eq_false_iff_not,
        Bool.and_eq_false_iff, beq_eq_false_iff_ne, ne_eq] at h1 h2
      have hab : a = b := by omega
      subst hab
      rcases h1.2 with h1' | h1'
      · exact absurd rfl h1'
      · rcases h2.2 with h2' | h2'
        · exact absurd rfl h2'
        · rw [ih h1' h2']

theorem fields_inj {a b : PyDateTime} (h : a.fields = b.fields) : a = b := by
  cases a
  cases b
  simp only [PyDateTime.fields, List.cons.injEq, and_true] at h
  obtain ⟨h1, h2, h3, h4, h5, h6, h7⟩ := h
  subst h1 h2 h3 h4 h5 h6 h7
  rfl

theorem ltb_trans {a b c : PyDateTime} (h1 : PyDateTime.ltb a b = true)
    (h2 : PyDateTime.ltb b c = true) : PyDateTime.ltb a c = true :=
  lexLtN_trans h1 h2

theorem ltb_connex {a b : PyDateTime} (h1 : PyDateTime.ltb a b = false)
    (h2 : PyDateTime.ltb b a = false) : a = b :=
  fields_inj (lexLtN_connex h1 h2)

theorem key_le_iff (a b : Task) :
    key_le a b = true ↔
      (PyDateTime.ltb (parse_due a.due_date) (parse_due b.due_date) = true ∨
        (parse_due a.due_date = parse_due b.due_date ∧
          (priority_rank a.priority < priority_rank b.priority ∨
            (priority_rank a.priority = priority_rank b.priority ∧ a.id ≤ b.id)))) := by
  unfold key_le
  simp only [Bool.or_eq_true, Bool.and_eq_true, beq_iff_eq, decide_eq_true_eq]

theorem key_le_trans (a b c : Task) (h1 : key_le a b = true) (h2 : key_le b c = true) :
    key_le a c = true := by
  rw [key_le_iff] at h1 h2 ⊢
  rcases h1 with h1 | ⟨hab, hr1⟩
  · rcases h2 with h2 | ⟨hbc, hr2⟩
    · exact Or.inl (ltb_trans h1 h2)
    · exact Or.inl (hbc ▸ h1)
  · rcases h2 with h2 | ⟨hbc, hr2⟩
    · exact Or.inl (hab ▸ h2)
    · exact Or.inr ⟨hab.trans hbc, by omega⟩

theorem key_le_total (a b : Task) : (key_le a b || key_le b a) = true := by
  rw [Bool.or_eq_true, key_le_iff, key_le_iff]
  by_cases h1 : PyDateTime.ltb (parse_due a.due_date) (parse_due b.due_date) = true
  · exact Or.inl (Or.inl h1)
  · by_cases h2 : PyDateTime.ltb (parse_due b.due_date) (parse_due a.due_date) = true
    · exact Or.inr (Or.inl h2)
    · have heq : parse_due a.due_date = parse_due b.due_date :=
        ltb_connex (Bool.not_eq_true _ ▸ h1 : _) (Bool.not_eq_true _ ▸ h2 : _)
      have htotal : (priority_rank a.priority < priority_rank b.priority ∨
          (priority_rank a.priority = priority_rank b.priority ∧ a.id ≤ b.id)) ∨
          (priority_rank b.priority < priority_rank a.priority ∨
            (priority_rank b.priority = priority_rank a.priority ∧ b.id ≤ a.id)) := by
        omega
      rcases htotal with h | h
      · exact Or.inl (Or.inr ⟨heq, h⟩)
      · exact Or.inr (Or.inr ⟨heq.symm, h⟩)

theorem readDigitsAux_lt : ∀ (n acc : Nat) (cs : List Char) (v : Nat) (rest : List Char),
    readDigitsAux n acc cs = some (v, rest) → v < (acc + 1) * 10 ^ n := by
  intro n
  induction n with
  | zero =>
    intro acc cs v rest h
    simp only [readDigitsAux, Option.some.injEq, Prod.mk.injEq] at h
    omega
  | succ n ih =>
    intro acc cs v rest h
    cases cs with
    | nil => simp [readDigitsAux] at h
    | cons c cs' =>
      simp only [readDigitsAux] at h
      cases hd : digitVal c with
      | none => rw [hd] at h; simp at h
      | some d =>
        rw [hd] at h
        have hdle : d ≤ 9 := by
          unfold digitVal at hd
          split at hd
          · rename_i hc
            simp only [Bool.and_eq_true, decide_eq_true_eq] at hc
            simp only [Option.some.injEq] at hd
            omega
          · simp at hd
        have hv := ih (acc * 10 + d) cs' v rest h
        calc v < (acc * 10 + d + 1) * 10 ^ n := hv
          _ ≤ ((acc + 1) * 10) * 10 ^ n := Nat.mul_le_mul_right _ (by omega)
          _ = (acc + 1) * 10 ^ (n + 1) := by ring

theorem readDigits_lt {n : Nat} {cs : List Char} {v : Nat} {rest : List Char}
    (h : readDigits n cs = some (v, rest)) : v < 10 ^ n := by
  have := readDigitsAux_lt n 0 cs v rest h
  simpa using this

theorem readFraction_le {cs : List Char} {us : Nat} {rest : List Char}
    (h : readFraction cs = some (us, rest)) : us ≤ 999999 := by
  unfold readFraction at h
  cases h6 : readDigits 6 cs with
  | some p =>
    rw [h6] at h
    obtain ⟨v6, r6⟩ := p
    simp only [Option.some.injEq, Prod.mk.injEq] at h
    have := readDigits_lt h6
    omega
  | none =>
    rw [h6] at h
    cases h3 : readDigits 3 cs with
    | none => rw [h3] at h; simp at h
    | some p =>
      rw [h3] at h
      obtain ⟨v3, r3⟩ := p
      simp only [Option.some.injEq, Prod.mk.injEq] at h
      have := readDigits_lt h3
      omega

theorem parse_time_bounds {cs : List Char} {hh mm ss uu : Nat}
    (hp : parse_time cs = some (hh, mm, ss, uu)) :
    hh ≤ 23 ∧ mm ≤ 59 ∧ ss ≤ 59 ∧ uu ≤ 999999 := by
  unfold parse_time at hp
  cases h1 : readDigits 2 cs with
  | none => simp [h1] at hp
  | some p1 =>
    obtain ⟨h0, rest1⟩ := p1
    simp only [h1] at hp
    split at hp
    · simp at hp
    · rename_i hb0
      split at hp
      · simp only [Option.some.injEq, Prod.mk.injEq] at hp
        omega
      · rename_i rest2
        cases h2 : readDigits 2 rest2 with
        | none => simp [h2] at hp
        | some p2 =>
          obtain ⟨m0, rest3⟩ := p2
          simp only [h2] at hp
          split at hp
          · simp at hp
          · rename_i hb1
            split at hp
            · simp only [Option.some.injEq, Prod.mk.injEq] at hp
              omega
            · rename_i rest4
              cases h3 : readDigits 2 rest4 with
              | none => simp [h3] at hp
              | some p3 =>
                obtain ⟨s0, rest5⟩ := p3
                simp only [h3] at hp
                split at hp
                · simp at hp
                · rename_i hb2
                  split at hp
                  · simp only [Option.some.injEq, Prod.mk.injEq] at hp
                    omega
                  · split at hp
                    · rename_i u0 hfr
                      simp only [Option.some.injEq, Prod.mk.injEq] at hp
                      have hu := readFraction_le hfr
                      omega
                    · simp at hp
                  · simp at hp
            · simp at hp
      · simp at hp

theorem days_in_month_le (y m : Nat) : days_in_month y m ≤ 31 := by
  unfold days_in_month
  split
  · split
    · omega
    · omega
  · split
    · omega
    · omega

theorem fromisoformatChars_in_range {cs : List Char} {dt : PyDateTime}
    (h : fromisoformatChars cs = some dt) :
    in_range dt ∧ 1 ≤ dt.year ∧ 1 ≤ dt.month ∧ 1 ≤ dt.day := by
  unfold fromisoformatChars at h
  cases h4 : readDigits 4 cs with
  | none => simp [h4] at h
  | some p0 =>
    obtain ⟨y, r1⟩ := p0
    simp only [h4] at h
    cases hg1 : expectChar '-' r1 with
    | none => simp [hg1] at h
    | some r2 =>
      simp only [hg1] at h
      cases h2 : readDigits 2 r2 with
      | none => simp [h2] at h
      | some p1 =>
        obtain ⟨mo, r3⟩ := p1
        simp only [h2] at h
        cases hg2 : expectChar '-' r3 with
        | none => simp [hg2] at h
        | some r4 =>
          simp only [hg2] at h
          cases h3 : readDigits 2 r4 with
          | none => simp [h3] at h
          | some p2 =>
            obtain ⟨d, r5⟩ := p2
            simp only [h3] at h
            split at h
            · simp at h
            · rename_i hguard
              have hy := readDigits_lt h4
              have hdm := days_in_month_le y mo
              simp at hguard
              split at h
              · simp only [Option.some.injEq] at h
                subst h
                simp only [in_range]
                omega
              · rename_i sep timecs
                cases hpt : parse_time timecs with
                | none => simp [hpt] at h
                | some q =>
                  obtain ⟨th, q1⟩ := q
                  obtain ⟨tm, q2⟩ := q1
                  obtain ⟨ts, tu⟩ := q2
                  simp only [hpt, Option.some.injEq] at h
                  subst h
                  have htb := parse_time_bounds hpt
                  simp only [in_range]
                  omega

theorem fromisoformat_in_range {s : String} {dt : PyDateTime}
    (h : fromisoformat s = some dt) :
    in_range dt ∧ 1 ≤ dt.year ∧ 1 ≤ dt.month ∧ 1 ≤ dt.day := by
  unfold fromisoformat at h
  exact fromisoformatChars_in_range h

theorem in_range_max : in_range datetime_max := by
  unfold in_range
  decide

theorem ltb_max_false (x : PyDateTime) (hb : in_range x) :
    PyDateTime.ltb datetime_max x = false := by
  obtain ⟨h1, h2, h3, h4, h5, h6, h7⟩ := hb
  cases x
  simp only [PyDateTime.ltb, datetime_max, PyDateTime.fields, lexLtN,
    Bool.or_eq_false_iff, decide_eq_false_iff_not, Bool.and_eq_false_iff,
    beq_eq_false_iff_ne, ne_eq, not_lt] at *
  exact ⟨h1, Or.inr ⟨h2, Or.inr ⟨h3, Or.inr ⟨h4, Or.inr ⟨h5, Or.inr ⟨h6,
    Or.inr ⟨h7, Or.inr trivial⟩⟩⟩⟩⟩⟩⟩

theorem parse_due_in_range (d : Option String) : in_range (parse_due d) := by
  cases d with
  | none => exact in_range_max
  | some s =>
    simp only [parse_due]
    split
    · exact in_range_max
    · cases hf : fromisoformat s with
      | some dt => exact (fromisoformat_in_range hf).1
      | none =>
        cases hf2 : fromisoformat (s ++ "T23:59:59") with
        | some dt => exact (fromisoformat_in_range hf2).1
        | none => exact in_range_max

/-- C8: for every store and status filter, `list_tasks` returns a
permutation of the (filtered) tasks that is sorted under the key order
`key_le`; `key_le` is exactly "due date ascending, then priority rank
(high=0 < medium=1 < low=2 < unknown=3), then id ascending"; and a task
without a due date has the maximal due key (`datetime.max`), hence sorts
after every parseable due date. -/
theorem c8_list_tasks_sort_order (db : List Task) (status : String) :
    ((list_tasks db status).tasks).Perm
        (if status ≠ "all" then db.filter (fun t => t.status == status) else db) ∧
    List.Pairwise (fun a b => key_le a b = true) (list_tasks db status).tasks ∧
    (∀ a b : Task, key_le a b = true ↔
      (PyDateTime.ltb (parse_due a.due_date) (parse_due b.due_date) = true ∨
        (parse_due a.due_date = parse_due b.due_date ∧
          (priority_rank a.priority < priority_rank b.priority ∨
            (priority_rank a.priority = priority_rank b.priority ∧ a.id ≤ b.id))))) ∧
    (∀ t u : Task, t.due_date = none →
      PyDateTime.ltb (parse_due t.due_date) (parse_due u.due_date) = false) := by
  refine ⟨?_, ?_, key_le_iff, ?_⟩
  · exact List.mergeSort_perm _ _
  · exact List.sorted_mergeSort key_le_trans key_le_total _
  · intro t u ht
    rw [ht]
    exact ltb_max_false (parse_due u.due_date) (parse_due_in_range u.due_date)

/-- Witness for C8 at the spec's example store: the missing-due-date task's
key is not below the key of the task due 2024-01-01 (missing due dates sort
last). -/
theorem c8_witness :
    PyDateTime.ltb (parse_due task_no_due.due_date) (parse_due task_jan.due_date) = false :=
  (c8_list_tasks_sort_order [task_no_due, task_feb, task_jan] "all").2.2.2
    task_no_due task_jan rfl

/-- C10: `delete_previous_month_tasks` saves back exactly the tasks that do
not satisfy the previous-month test and deletes exactly those that do; a
task with a missing due date or an unparseable one is always retained; any
deleted task has a parsed due date satisfying the code's previous-month
condition; and for a real current month (1-12) that condition is exactly
"the calendar month immediately before the current month". -/
theorem c10_delete_previous_month (db : List Task) (current_year current_month : Int) :
    ((delete_previous_month_tasks db current_year current_month).2 =
      db.filter (fun t => !(due_in_previous_month current_year current_month t))) ∧
    ((delete_previous_month_tasks db current_year current_month).1.deleted_tasks =
      db.filter (due_in_previous_month current_year current_month)) ∧
    (∀ t ∈ db, t.due_date = none →
      t ∈ (delete_previous_month_tasks db current_year current_month).2) ∧
    (∀ t ∈ db, ∀ s, t.due_date = some s → fromisoformat s = none →
      t ∈ (delete_previous_month_tasks db current_year current_month).2) ∧
    (∀ t : Task, due_in_previous_month current_year current_month t = true →
      ∃ s due, t.due_date = some s ∧ fromisoformat s = some due ∧
        previous_month_hit current_year current_month due = true) ∧
    (1 ≤ current_month → current_month ≤ 12 →
      ∀ (s : String) (due : PyDateTime), fromisoformat s = some due →
        (previous_month_hit current_year current_month due = true ↔
          prev_month_spec current_year current_month (due.year : Int) (due.month : Int))) := by
  refine ⟨rfl, rfl, ?_, ?_, ?_, ?_⟩
  · intro t ht h
    exact List.mem_filter.mpr ⟨ht, by simp [due_in_previous_month, h]⟩
  · intro t ht s hs hparse
    exact List.mem_filter.mpr ⟨ht, by simp [due_in_previous_month, hs, hparse]⟩
  · intro t h
    unfold due_in_previous_month at h
    cases hd : t.due_date with
    | none => rw [hd] at h; simp at h
    | some s =>
      rw [hd] at h
      have h' : (match fromisoformat s with
          | none => false
          | some due => previous_month_hit current_year current_month due) = true := h
      cases hf : fromisoformat s with
      | none => rw [hf] at h'; simp at h'
      | some due =>
        rw [hf] at h'
        exact ⟨s, due, rfl, hf, h'⟩
  · intro h1 h2 s due hparse
    have hr := (fromisoformat_in_range hparse).1
    have hm1 := (fromisoformat_in_range hparse).2.2.1
    unfold in_range at hr
    obtain ⟨hy9, hm12, _, _, _, _, _⟩ := hr
    unfold previous_month_hit prev_month_spec
    simp only [Bool.or_eq_true, Bool.and_eq_true, beq_iff_eq]
    split
    · rename_i hcm
      omega
    · rename_i hcm
      omega

/-- Witness for C10 at a concrete store and current date March 2024: the
missing-due task and the unparseable-due task are both retained. -/
theorem c10_witness :
    task_no_due ∈ (delete_previous_month_tasks
        [task_no_due, task_bad_due, task_prev_month] 2024 3).2 ∧
    task_bad_due ∈ (delete_previous_month_tasks
        [task_no_due, task_bad_due, task_prev_month] 2024 3).2 := by
  refine ⟨?_, ?_⟩
  · exact (c10_delete_previous_month [task_no_due, task_bad_due, task_prev_month]
      2024 3).2.2.1 task_no_due (by decide) rfl
  · exact (c10_delete_previous_month [task_no_due, task_bad_due, task_prev_month]
      2024 3).2.2.2.1 task_bad_due (by decide) "soon" rfl (by decide)

end TaskScheduler
